import Mathlib

/-!
# SimGUI core — shallow embedding and verification

Shallow embedding of the SimGUI repository's core logic:

* `src/managers/csv_manager.py` — `CSVManager` (batch store, validation),
* `src/managers/card_manager.py` — `CardManager` (CLI invocation, card session),
* `src/dialogs/adm1_dialog.py` — the attempt/confirmation decision in
  `ADM1Dialog._on_ok`.

Python dictionaries (with insertion order) are embedded as association
lists with unique keys; Python strings as `String`; Python `int` indices as
`Int` (they may be negative); the `subprocess.run` call as an explicit
outcome parameter describing what the spawned process did.
-/

namespace SimGUI

/-- A provisioning record: a Python `Dict[str, str]` as an ordered
association list (insertion order preserved, keys unique by construction
of the operations below). -/
abbrev Record := List (String × String)

/-- `card.get(k, '')`: the value at key `k`, or `""` when absent. -/
def getD (card : Record) (k : String) : String :=
  match card.find? (fun p => p.1 == k) with
  | some p => p.2
  | none => ""

/-- Python dict assignment `d[k] = v`: replace the value in place when the
key exists, otherwise append the new pair (insertion order). -/
def setField (card : Record) (k v : String) : Record :=
  if card.any (fun p => p.1 == k) then
    card.map (fun p => if p.1 == k then (p.1, v) else p)
  else card ++ [(k, v)]

/-- Build a dict from a list of assignments applied in order. -/
def buildDict (pairs : List (String × String)) : Record :=
  pairs.foldl (fun acc p => setField acc p.1 p.2) []

/-- `str.isdigit` restricted to ASCII decimal digits, as used on
IMSI/ICCID values. -/
def isAllDigits (s : String) : Bool := s.data.all Char.isDigit

/-- Membership in the literal `'0123456789abcdefABCDEF'` from
`CSVManager.validate_all`. -/
def isHexChar (c : Char) : Bool := "0123456789abcdefABCDEF".data.contains c

/-- `s.replace(' ', '')`: remove every space character. -/
def stripSpaces (s : String) : String := String.mk (s.data.filter (fun c => c != ' '))

/-- The `IMSI` test of `validate_all`:
`imsi and (not imsi.isdigit() or not (6 <= len(imsi) <= 15))`. -/
def imsiBad (imsi : String) : Bool :=
  imsi != "" && (!isAllDigits imsi || !decide (6 ≤ imsi.length ∧ imsi.length ≤ 15))

/-- The `ICCID` test of `validate_all`:
`iccid and (not iccid.isdigit() or not (10 <= len(iccid) <= 20))`. -/
def iccidBad (iccid : String) : Bool :=
  iccid != "" && (!isAllDigits iccid || !decide (10 ≤ iccid.length ∧ iccid.length ≤ 20))

/-- The `Ki`/`OPc` test of `validate_all`: nonempty, and after
`replace(' ', '')` not exactly 32 characters from the hex alphabet. -/
def hexKeyBad (k : String) : Bool :=
  k != "" &&
    (!decide ((stripSpaces k).length = 32) || !(stripSpaces k).data.all isHexChar)

/-- The `ADM1` test of `validate_all`: `adm1 and len(adm1) != 8`. -/
def adm1Bad (a : String) : Bool :=
  a != "" && a.length != 8

/-- The defect list `validate_all` appends for one card at 1-based row
number `row` (the body of its `for` loop). -/
def cardErrors (row : Nat) (card : Record) : List String :=
  (if imsiBad (getD card "IMSI") then
    ["Row " ++ toString row ++ ": IMSI must be 6-15 digits"] else [])
  ++ (if iccidBad (getD card "ICCID") then
    ["Row " ++ toString row ++ ": ICCID must be 10-20 digits"] else [])
  ++ (if hexKeyBad (getD card "Ki") then
    ["Row " ++ toString row ++ ": Ki must be 32 hex chars"] else [])
  ++ (if hexKeyBad (getD card "OPc") then
    ["Row " ++ toString row ++ ": OPc must be 32 hex chars"] else [])
  ++ (if adm1Bad (getD card "ADM1") then
    ["Row " ++ toString row ++ ": ADM1 must be 8 chars"] else [])

/-- The state of a `CSVManager`: the ordered card list and the column
list.  (The `filepath` attribute plays no role in the verified claims.) -/
structure CSVStore where
  cards : List Record
  columns : List String
  deriving Repr, DecidableEq

/-- The standard column list the constructor installs. -/
def STANDARD_COLUMNS : List String :=
  ["ICCID", "IMSI", "Ki", "OPc", "ADM1",
   "MNC_LENGTH", "ALGO_2G", "ALGO_3G", "ALGO_4G5G",
   "USE_OPC", "HPLMN"]

/-- A fresh `CSVManager()`. -/
def initStore : CSVStore := { cards := [], columns := STANDARD_COLUMNS }

/-- `CSVManager.validate_all`: concatenation of the per-row defect lists,
rows numbered from 1. -/
def validate_all (cards : List Record) : List String :=
  (cards.enum.map (fun p => cardErrors (p.1 + 1) p.2)).flatten

/-- `csv.DictReader`'s view of one data row under a header: the dict
pairing header names with cell values (an excluded collaborator per the
spec; modelled at the parsed-rows level). -/
def rowToRecord (header : List String) (row : List String) : Record :=
  buildDict (header.zip row)

/-- `CSVManager.load_csv`, at the parsed-rows level: `fieldnames = none`
models a file with no header row (load fails); otherwise both the column
list and the card list are replaced by the file's contents. -/
def load_csv (st : CSVStore) (fieldnames : Option (List String))
    (rows : List (List String)) : CSVStore × Bool :=
  match fieldnames with
  | none => (st, false)
  | some header =>
    ({ st with columns := header, cards := rows.map (rowToRecord header) }, true)

/-- `CSVManager.save_csv`, at the rows level: the header written is the
column list, and each card becomes the row of its values at those columns
(`csv.DictWriter` with `extrasaction='ignore'` drops keys outside
`fieldnames` and writes `restval = ''` for missing ones). -/
def save_csv (st : CSVStore) : List String × List (List String) :=
  (st.columns, st.cards.map (fun card => st.columns.map (fun c => getD card c)))

/-- Python `str.strip()` at the character level: drop whitespace from
both ends. -/
def trimChars (cs : List Char) : List Char :=
  ((cs.dropWhile Char.isWhitespace).reverse.dropWhile Char.isWhitespace).reverse

/-- Python `line.partition('=')`, keeping only the parts before and after
the first `=`; `none` when the line has no `=` (`'=' in line` is false). -/
def partitionAtEq (cs : List Char) : Option (List Char × List Char) :=
  match cs with
  | [] => none
  | c :: rest =>
    if c = '=' then some ([], rest)
    else
      match partitionAtEq rest with
      | some (k, v) => some (c :: k, v)
      | none => none

/-- One line of a `card-parameters.txt` file: strip, skip blanks and
`#`-comments, and on `'=' in line` split at the first `=`
(`line.partition('=')`) and strip key and value. -/
def parseParamLine (rawLine : String) : Option (String × String) :=
  let line := trimChars rawLine.data
  if line.isEmpty ∨ line.head? = some '#' then none
  else
    match partitionAtEq line with
    | none => none
    | some (k, v) => some (String.mk (trimChars k), String.mk (trimChars v))

/-- The column merge in `load_card_parameters_file`:
`for k in card_data: if k not in self.columns: self.columns.append(k)`. -/
def mergeColumns (cols : List String) (keys : List String) : List String :=
  keys.foldl (fun acc k => if acc.contains k then acc else acc ++ [k]) cols

/-- `CSVManager.load_card_parameters_file`, over the file's lines: parse
`key=value` lines into one record; when it is nonempty, append it and
merge its new keys into the column list. -/
def load_card_parameters_file (st : CSVStore) (lines : List String) :
    CSVStore × Bool :=
  let card := buildDict (lines.filterMap parseParamLine)
  if card.isEmpty then (st, false)
  else
    ({ st with cards := st.cards ++ [card],
               columns := mergeColumns st.columns (card.map (·.1)) }, true)

/-- `CSVManager.get_card`: Python `int` index, possibly negative. -/
def get_card (st : CSVStore) (index : Int) : Option Record :=
  if h : 0 ≤ index ∧ index < (st.cards.length : Int) then
    some (st.cards.get ⟨index.toNat, by omega⟩)
  else none

/-- `CSVManager.add_card`: append an explicit record, or an empty record
keyed by the current columns. -/
def add_card (st : CSVStore) (card? : Option Record) : CSVStore :=
  let card := match card? with
    | none => buildDict (st.columns.map (fun c => (c, "")))
    | some c => c
  { st with cards := st.cards ++ [card] }

/-- `CSVManager.remove_card`: in range, pop the card and return `true`;
otherwise leave the store unchanged and return `false`. -/
def remove_card (st : CSVStore) (index : Int) : CSVStore × Bool :=
  if 0 ≤ index ∧ index < (st.cards.length : Int) then
    ({ st with cards := st.cards.eraseIdx index.toNat }, true)
  else (st, false)

/-- `CSVManager.update_card`: in range, assign `cards[index][key] = value`
and return `true`; otherwise leave the store unchanged and return
`false`. -/
def update_card (st : CSVStore) (index : Int) (key value : String) :
    CSVStore × Bool :=
  if h : 0 ≤ index ∧ index < (st.cards.length : Int) then
    let newCard := setField (st.cards.get ⟨index.toNat, by omega⟩) key value
    ({ st with cards := st.cards.set index.toNat newCard }, true)
  else (st, false)

/-- `CSVManager.validate_card`: validate the single card (as row 1 of a
fresh manager) when the index is in range, else report the index. -/
def validate_card (st : CSVStore) (index : Int) : List String :=
  if h : 0 ≤ index ∧ index < (st.cards.length : Int) then
    validate_all [st.cards.get ⟨index.toNat, by omega⟩]
  else ["Invalid index: " ++ toString index]

/-! ## Card manager (`src/managers/card_manager.py`) -/

/-- `CardType` from `card_manager.py`. -/
inductive CardType where
  | unknown | sjs1 | sja2 | sja5
  deriving Repr, DecidableEq

/-- What the spawned subprocess did, seen from `_run_cli`'s `try` block:
a normal exit with a status code and captured streams, a hit of the
`timeout=` bound, a missing script file, or any other launch error with
its text. -/
inductive ProcOutcome where
  | exited (code : Int) (stdout stderr : String)
  | timedOut
  | fileNotFound
  | otherError (msg : String)
  deriving Repr, DecidableEq

/-- `CardManager`'s mutable attributes.  `toolCalls` is explicit
instrumentation counting `_run_cli` invocations, so that "without any
tool call" claims are statable. -/
structure CardMgr where
  cliPath : Option String
  cardType : CardType
  authenticated : Bool
  cardInfo : Record
  toolCalls : Nat
  deriving Repr, DecidableEq

/-- A fresh `CardManager()` whose tool discovery resolved to `cliPath`
(`_find_cli_tool` probes the filesystem; its result is a parameter
here). -/
def initMgr (cliPath : Option String) : CardMgr :=
  { cliPath := cliPath, cardType := .unknown, authenticated := false,
    cardInfo := [], toolCalls := 0 }

/-- `CardManager._run_cli`: with no tool path, fail with the guidance
message and spawn nothing; otherwise classify the subprocess outcome —
success iff exit status 0, output `stdout + stderr` stripped, the fixed
timeout message, the missing-script message, or the error text. -/
def runCli (cliPath : Option String) (script : String) (outcome : ProcOutcome) :
    Bool × String :=
  match cliPath with
  | none =>
    (false, "sysmo-usim-tool not found. Set SYSMO_USIM_TOOL_PATH or place it next to SimGUI.")
  | some _ =>
    match outcome with
    | .exited code stdout stderr => (code == 0, (stdout ++ stderr).trim)
    | .timedOut => (false, "Command timed out")
    | .fileNotFound => (false, "Script not found: " ++ script)
    | .otherError msg => (false, msg)

/-- `CardManager.detect_card`: reset session state, then probe the SJA2
script through `_run_cli` (one tool call) and report. -/
def detect_card (m : CardMgr) (outcome : ProcOutcome) : CardMgr × Bool × String :=
  let m1 := { m with authenticated := false, cardInfo := [],
                     cardType := .unknown, toolCalls := m.toolCalls + 1 }
  let r := runCli m.cliPath "sysmo_isim_sja2.py" outcome
  if r.1 then (m1, true, "Card reader available (use Authenticate to connect)")
  else (m1, false, r.2)

/-- `CardManager.authenticate`: reject a key that is empty or not exactly
8 characters; otherwise (placeholder body in the source) set the
authenticated flag and report success.  The `force` argument is unused by
the source and no tool call is made on any path. -/
def authenticate (m : CardMgr) (adm1 : String) (force : Bool) :
    CardMgr × Bool × String :=
  if adm1 == "" || adm1.length != 8 then
    (m, false, "ADM1 must be exactly 8 characters")
  else
    ({ m with authenticated := true }, true, "Authentication successful")

/-- `CardManager.read_card_data`: `None` when not authenticated; else
`card_info` when it is nonempty (Python truthiness), else `None`. -/
def read_card_data (m : CardMgr) : Option Record :=
  if !m.authenticated then none
  else if m.cardInfo.isEmpty then none
  else some m.cardInfo

/-- `CardManager.get_remaining_attempts`: the source returns the constant
`3` (placeholder). -/
def get_remaining_attempts (_ : CardMgr) : Int := 3

/-- `CardManager.disconnect`. -/
def disconnect (m : CardMgr) : CardMgr :=
  { m with authenticated := false, cardType := .unknown, cardInfo := [] }

/-! ## Attempt guard (`src/dialogs/adm1_dialog.py`) -/

/-- The decision vocabulary of the spec's `AttemptGuard`. -/
inductive GuardDecision where
  | allowed | requiresConfirmation | blocked
  deriving Repr, DecidableEq

/-- The attempt-guard decision implemented by `ADM1Dialog._on_ok` for a
well-formed key: `if self.remaining_attempts < 3 and not
self.force_auth.get()` the user must confirm, otherwise the attempt
proceeds.  The dialog has no branch that refuses the attempt outright. -/
def mayAttempt (remaining : Int) (force : Bool) : GuardDecision :=
  if remaining < 3 ∧ force = false then .requiresConfirmation
  else .allowed

/-! ## Operation sequences and round trips -/

/-- The non-load editing operations of `CSVManager`, for stating how a
sequence of them acts on the store. -/
inductive EditOp where
  | importParams (lines : List String)
  | addCard (card? : Option Record)
  | removeCard (index : Int)
  | updateCard (index : Int) (key value : String)
  deriving Repr

/-- Apply one editing operation (dropping the returned status). -/
def applyEdit (st : CSVStore) (op : EditOp) : CSVStore :=
  match op with
  | .importParams lines => (load_card_parameters_file st lines).1
  | .addCard c => add_card st c
  | .removeCard i => (remove_card st i).1
  | .updateCard i k v => (update_card st i k v).1

/-- Apply a sequence of editing operations left to right. -/
def applyEdits (st : CSVStore) (ops : List EditOp) : CSVStore :=
  ops.foldl applyEdit st

/-- `save_csv` followed by `load_csv` of exactly what was written. -/
def saveLoad (st : CSVStore) : CSVStore :=
  (load_csv st (some (save_csv st).1) (save_csv st).2).1

/-- A store that imported a parameter file introducing column `X`. -/
def importedXStore : CSVStore := (load_card_parameters_file initStore ["X=1"]).1

/-- `importedXStore` after a later `load_csv` whose header is `["Y"]`. -/
def reloadedYStore : CSVStore := (load_csv importedXStore (some ["Y"]) []).1

/-- A store holding a record with a field (`B`) outside the column set:
built by loading a one-column file and then `update_card` with a new
key (which does not merge the key into the columns). -/
def strayFieldStore : CSVStore :=
  (update_card (load_csv initStore (some ["A"]) [["1"]]).1 0 "B" "2").1

/-- A two-column store with records missing some columns, for exercising
the save/load round trip. -/
def twoColStore : CSVStore :=
  (load_csv initStore (some ["A", "B"]) [["1", ""], ["", "2"]]).1

/-! ## Helper lemmas -/

theorem strAppend_ne (p s t : String) (h : s ≠ t) : p ++ s ≠ p ++ t := by
  intro he
  apply h
  have hd := congrArg String.data he
  simp only [String.data_append] at hd
  have h2 := List.append_cancel_left hd
  cases s; cases t; exact congrArg String.mk h2

theorem mem_flag (m m1 : String) (c : Bool) :
    (m ∈ if c then [m1] else ([] : List String)) ↔ (c = true ∧ m = m1) := by
  cases c <;> simp

theorem rowMsg_ne (row : Nat) (s t : String) (h : s ≠ t) :
    "Row " ++ toString row ++ s ≠ "Row " ++ toString row ++ t := by
  simpa [String.append_assoc] using
    strAppend_ne ("Row " ++ toString row) s t h

theorem mem_cardErrors_imsi (card : Record) (row : Nat) :
    ("Row " ++ toString row ++ ": IMSI must be 6-15 digits") ∈ cardErrors row card ↔
      imsiBad (getD card "IMSI") = true := by
  have h2 := rowMsg_ne row ": IMSI must be 6-15 digits" ": ICCID must be 10-20 digits" (by decide)
  have h3 := rowMsg_ne row ": IMSI must be 6-15 digits" ": Ki must be 32 hex chars" (by decide)
  have h4 := rowMsg_ne row ": IMSI must be 6-15 digits" ": OPc must be 32 hex chars" (by decide)
  have h5 := rowMsg_ne row ": IMSI must be 6-15 digits" ": ADM1 must be 8 chars" (by decide)
  simp only [String.append_assoc] at h2 h3 h4 h5
  rw [cardErrors]
  simp only [List.mem_append, mem_flag, String.append_assoc]
  simp [h2, h3, h4, h5]

theorem mem_cardErrors_iccid (card : Record) (row : Nat) :
    ("Row " ++ toString row ++ ": ICCID must be 10-20 digits") ∈ cardErrors row card ↔
      iccidBad (getD card "ICCID") = true := by
  have h1 := rowMsg_ne row ": ICCID must be 10-20 digits" ": IMSI must be 6-15 digits" (by decide)
  have h3 := rowMsg_ne row ": ICCID must be 10-20 digits" ": Ki must be 32 hex chars" (by decide)
  have h4 := rowMsg_ne row ": ICCID must be 10-20 digits" ": OPc must be 32 hex chars" (by decide)
  have h5 := rowMsg_ne row ": ICCID must be 10-20 digits" ": ADM1 must be 8 chars" (by decide)
  simp only [String.append_assoc] at h1 h3 h4 h5
  rw [cardErrors]
  simp only [List.mem_append, mem_flag, String.append_assoc]
  simp [h1, h3, h4, h5]

theorem mem_cardErrors_ki (card : Record) (row : Nat) :
    ("Row " ++ toString row ++ ": Ki must be 32 hex chars") ∈ cardErrors row card ↔
      hexKeyBad (getD card "Ki") = true := by
  have h1 := rowMsg_ne row ": Ki must be 32 hex chars" ": IMSI must be 6-15 digits" (by decide)
  have h2 := rowMsg_ne row ": Ki must be 32 hex chars" ": ICCID must be 10-20 digits" (by decide)
  have h4 := rowMsg_ne row ": Ki must be 32 hex chars" ": OPc must be 32 hex chars" (by decide)
  have h5 := rowMsg_ne row ": Ki must be 32 hex chars" ": ADM1 must be 8 chars" (by decide)
  simp only [String.append_assoc] at h1 h2 h4 h5
  rw [cardErrors]
  simp only [List.mem_append, mem_flag, String.append_assoc]
  simp [h1, h2, h4, h5]

theorem mem_cardErrors_opc (card : Record) (row : Nat) :
    ("Row " ++ toString row ++ ": OPc must be 32 hex chars") ∈ cardErrors row card ↔
      hexKeyBad (getD card "OPc") = true := by
  have h1 := rowMsg_ne row ": OPc must be 32 hex chars" ": IMSI must be 6-15 digits" (by decide)
  have h2 := rowMsg_ne row ": OPc must be 32 hex chars" ": ICCID must be 10-20 digits" (by decide)
  have h3 := rowMsg_ne row ": OPc must be 32 hex chars" ": Ki must be 32 hex chars" (by decide)
  have h5 := rowMsg_ne row ": OPc must be 32 hex chars" ": ADM1 must be 8 chars" (by decide)
  simp only [String.append_assoc] at h1 h2 h3 h5
  rw [cardErrors]
  simp only [List.mem_append, mem_flag, String.append_assoc]
  simp [h1, h2, h3, h5]

theorem mem_cardErrors_adm1 (card : Record) (row : Nat) :
    ("Row " ++ toString row ++ ": ADM1 must be 8 chars") ∈ cardErrors row card ↔
      adm1Bad (getD card "ADM1") = true := by
  have h1 := rowMsg_ne row ": ADM1 must be 8 chars" ": IMSI must be 6-15 digits" (by decide)
  have h2 := rowMsg_ne row ": ADM1 must be 8 chars" ": ICCID must be 10-20 digits" (by decide)
  have h3 := rowMsg_ne row ": ADM1 must be 8 chars" ": Ki must be 32 hex chars" (by decide)
  have h4 := rowMsg_ne row ": ADM1 must be 8 chars" ": OPc must be 32 hex chars" (by decide)
  simp only [String.append_assoc] at h1 h2 h3 h4
  rw [cardErrors]
  simp only [List.mem_append, mem_flag, String.append_assoc]
  simp [h1, h2, h3, h4]

theorem imsiBad_iff (s : String) :
    imsiBad s = true ↔
      s ≠ "" ∧ (isAllDigits s = false ∨ ¬(6 ≤ s.length ∧ s.length ≤ 15)) := by
  simp only [imsiBad, Bool.and_eq_true, bne_iff_ne, Bool.or_eq_true,
    Bool.not_eq_true', decide_eq_false_iff_not, ne_eq]

theorem iccidBad_iff (s : String) :
    iccidBad s = true ↔
      s ≠ "" ∧ (isAllDigits s = false ∨ ¬(10 ≤ s.length ∧ s.length ≤ 20)) := by
  simp only [iccidBad, Bool.and_eq_true, bne_iff_ne, Bool.or_eq_true,
    Bool.not_eq_true', decide_eq_false_iff_not, ne_eq]

theorem hexKeyBad_iff (s : String) :
    hexKeyBad s = true ↔
      s ≠ "" ∧ ((stripSpaces s).length ≠ 32 ∨ (stripSpaces s).data.all isHexChar = false) := by
  simp only [hexKeyBad, Bool.and_eq_true, bne_iff_ne, Bool.or_eq_true,
    Bool.not_eq_true', decide_eq_false_iff_not, ne_eq]

theorem adm1Bad_iff (s : String) :
    adm1Bad s = true ↔ s ≠ "" ∧ s.length ≠ 8 := by
  simp only [adm1Bad, Bool.and_eq_true, bne_iff_ne, ne_eq]

theorem validate_all_singleton (card : Record) :
    validate_all [card] = cardErrors 1 card := by
  simp [validate_all]

theorem mergeColumns_grows (keys : List String) :
    ∀ cols : List String, ∃ ext, mergeColumns cols keys = cols ++ ext := by
  induction keys with
  | nil => exact fun cols => ⟨[], (List.append_nil cols).symm⟩
  | cons k ks ih =>
    intro cols
    rw [mergeColumns, List.foldl_cons]
    by_cases h : cols.contains k = true
    · obtain ⟨ext, he⟩ := ih cols
      rw [mergeColumns] at he
      rw [if_pos h]
      exact ⟨ext, he⟩
    · obtain ⟨ext, he⟩ := ih (cols ++ [k])
      rw [mergeColumns] at he
      rw [if_neg h]
      exact ⟨[k] ++ ext, by rw [he, List.append_assoc]⟩

theorem applyEdit_columns_grows (st : CSVStore) (op : EditOp) :
    ∃ ext, (applyEdit st op).columns = st.columns ++ ext := by
  cases op with
  | importParams lines =>
    simp only [applyEdit, load_card_parameters_file]
    by_cases h : (buildDict (lines.filterMap parseParamLine)).isEmpty
    · simp [h]
    · simp only [h, Bool.false_eq_true, if_neg, if_false]
      exact mergeColumns_grows _ st.columns
  | addCard c => exact ⟨[], by simp [applyEdit, add_card]⟩
  | removeCard i =>
    simp only [applyEdit, remove_card]
    by_cases h : 0 ≤ i ∧ i < (st.cards.length : Int) <;> simp [h]
  | updateCard i k v =>
    simp only [applyEdit, update_card]
    by_cases h : 0 ≤ i ∧ i < (st.cards.length : Int) <;> simp [h]

theorem applyEdits_columns_grows (ops : List EditOp) :
    ∀ st : CSVStore, ∃ ext, (applyEdits st ops).columns = st.columns ++ ext := by
  induction ops with
  | nil => exact fun st => ⟨[], (List.append_nil _).symm⟩
  | cons op ops ih =>
    intro st
    obtain ⟨e1, h1⟩ := applyEdit_columns_grows st op
    obtain ⟨e2, h2⟩ := ih (applyEdit st op)
    exact ⟨e1 ++ e2, by
      rw [applyEdits, List.foldl_cons]
      rw [applyEdits] at h2
      rw [h2, h1, List.append_assoc]⟩

theorem setField_append (acc : Record) (k v : String)
    (h : acc.any (fun q => q.1 == k) = false) :
    setField acc k v = acc ++ [(k, v)] := by
  rw [setField, if_neg]
  simp [h]

theorem buildDict_go (pairs : List (String × String)) :
    ∀ acc : Record, (pairs.map (·.1)).Nodup →
      (∀ p ∈ pairs, acc.any (fun q => q.1 == p.1) = false) →
      pairs.foldl (fun acc p => setField acc p.1 p.2) acc = acc ++ pairs := by
  induction pairs with
  | nil => intro acc _ _; simp
  | cons p ps ih =>
    intro acc hnd hacc
    rw [List.map_cons, List.nodup_cons] at hnd
    rw [List.foldl_cons]
    rw [setField_append acc p.1 p.2 (hacc p (List.mem_cons_self p ps))]
    have hp : (p.1, p.2) = p := rfl
    rw [hp]
    have hacc' : ∀ q ∈ ps, (acc ++ [p]).any (fun r => r.1 == q.1) = false := by
      intro q hq
      rw [List.any_append]
      have h1 := hacc q (List.mem_cons_of_mem p hq)
      have h2 : (p.1 == q.1) = false := by
        rw [beq_eq_false_iff_ne]
        intro he
        exact hnd.1 (he ▸ List.mem_map_of_mem (·.1) hq)
      simp [h1, h2]
    rw [ih (acc ++ [p]) hnd.2 hacc', List.append_assoc]
    rfl

theorem buildDict_of_nodupKeys (pairs : List (String × String))
    (h : (pairs.map (·.1)).Nodup) : buildDict pairs = pairs := by
  have := buildDict_go pairs [] h (by intro p _; rfl)
  simpa [buildDict] using this

theorem zip_self_map (f : String → String) :
    ∀ cols : List String, cols.zip (cols.map f) = cols.map (fun c => (c, f c)) := by
  intro cols
  induction cols with
  | nil => rfl
  | cons c cs ih => simp [ih]

theorem rowToRecord_of_nodup (cols : List String) (f : String → String)
    (h : cols.Nodup) :
    rowToRecord cols (cols.map f) = cols.map (fun c => (c, f c)) := by
  rw [rowToRecord, zip_self_map]
  apply buildDict_of_nodupKeys
  have he : ((cols.map fun c => (c, f c)).map (·.1)) = cols := by
    simp [Function.comp_def]
  rw [he]
  exact h

/-! ## Claims -/

/-- C1: for every record (at any 1-based row number), `validate_all`'s
per-row defect list flags the `IMSI` field iff it is non-empty and (not
all-digit or length outside `[6,15]`); flags `ICCID` iff non-empty and
(not all-digit or length outside `[10,20]`); flags `Ki` and `OPc` iff
non-empty and, after stripping spaces, not exactly 32 hex characters;
flags `ADM1` iff non-empty and not exactly 8 characters — so empty or
absent fields (which `get(k, '')` reads as `""`) are never flagged.
`validate_all` on a batch is exactly the concatenation of these per-row
lists, as the final conjunct records for a one-record batch. -/
theorem validate_all_flags_fields_iff (card : Record) (row : Nat) :
    (("Row " ++ toString row ++ ": IMSI must be 6-15 digits") ∈ cardErrors row card ↔
      getD card "IMSI" ≠ "" ∧ (isAllDigits (getD card "IMSI") = false ∨
        ¬(6 ≤ (getD card "IMSI").length ∧ (getD card "IMSI").length ≤ 15)))
  ∧ (("Row " ++ toString row ++ ": ICCID must be 10-20 digits") ∈ cardErrors row card ↔
      getD card "ICCID" ≠ "" ∧ (isAllDigits (getD card "ICCID") = false ∨
        ¬(10 ≤ (getD card "ICCID").length ∧ (getD card "ICCID").length ≤ 20)))
  ∧ (("Row " ++ toString row ++ ": Ki must be 32 hex chars") ∈ cardErrors row card ↔
      getD card "Ki" ≠ "" ∧ ((stripSpaces (getD card "Ki")).length ≠ 32 ∨
        (stripSpaces (getD card "Ki")).data.all isHexChar = false))
  ∧ (("Row " ++ toString row ++ ": OPc must be 32 hex chars") ∈ cardErrors row card ↔
      getD card "OPc" ≠ "" ∧ ((stripSpaces (getD card "OPc")).length ≠ 32 ∨
        (stripSpaces (getD card "OPc")).data.all isHexChar = false))
  ∧ (("Row " ++ toString row ++ ": ADM1 must be 8 chars") ∈ cardErrors row card ↔
      getD card "ADM1" ≠ "" ∧ (getD card "ADM1").length ≠ 8)
  ∧ validate_all [card] = cardErrors 1 card :=
  ⟨(mem_cardErrors_imsi card row).trans (imsiBad_iff _),
   (mem_cardErrors_iccid card row).trans (iccidBad_iff _),
   (mem_cardErrors_ki card row).trans (hexKeyBad_iff _),
   (mem_cardErrors_opc card row).trans (hexKeyBad_iff _),
   (mem_cardErrors_adm1 card row).trans (adm1Bad_iff _),
   validate_all_singleton card⟩

/-- C2 (counterexample): the attempt-guard decision coded in
`ADM1Dialog._on_ok` yields `allowed` — not `blocked` — at
`remainingAttempts = 0` with the force flag set: the dialog has no
lockout branch at all. -/
theorem mayAttempt_zero_force_not_blocked :
    mayAttempt 0 true = GuardDecision.allowed
  ∧ mayAttempt 0 true ≠ GuardDecision.blocked := by decide

/-- C2 (amended): the guard decision satisfies: `remainingAttempts >= 3`
yields `allowed`; `remainingAttempts < 3` — including zero and negative
values — yields `requiresConfirmation` when the force flag is false and
`allowed` when it is true.  No input yields `blocked`. -/
theorem mayAttempt_policy (r : Int) (f : Bool) :
    (3 ≤ r → mayAttempt r f = GuardDecision.allowed)
  ∧ (r < 3 → mayAttempt r true = GuardDecision.allowed)
  ∧ (r < 3 → mayAttempt r false = GuardDecision.requiresConfirmation) := by
  refine ⟨fun h => ?_, fun h => ?_, fun h => ?_⟩ <;> simp [mayAttempt] <;> omega

/-- C2 (witness): the amended policy at the spec's sample points. -/
theorem mayAttempt_policy_witness :
    mayAttempt 5 false = GuardDecision.allowed
  ∧ mayAttempt 1 true = GuardDecision.allowed
  ∧ mayAttempt 1 false = GuardDecision.requiresConfirmation :=
  ⟨(mayAttempt_policy 5 false).1 (by decide),
   (mayAttempt_policy 1 true).2.1 (by decide),
   (mayAttempt_policy 1 false).2.2 (by decide)⟩

/-- C3 (code divergence): from any session state, `authenticate` with a
valid 8-character key and `force = false` succeeds immediately and sets
the authenticated flag — it consults no attempt guard and never returns a
confirmation-required failure — and `get_remaining_attempts` is the
constant `3`, so a session whose remaining-attempt counter is `1` does
not even exist in the code. -/
theorem authenticate_ignores_attempt_guard (m : CardMgr) :
    authenticate m "12345678" false =
      ({ m with authenticated := true }, true, "Authentication successful")
  ∧ get_remaining_attempts m = 3 := ⟨rfl, rfl⟩

/-- C4 (counterexample): a parameter-file import introduces column `X`,
but a later `load_csv` replaces the whole column list with the new file's
header, so `X` is gone — the column set is not the union of all keys ever
seen and a later load does remove columns introduced earlier. -/
theorem later_load_replaces_columns :
    reloadedYStore.columns = ["Y"]
  ∧ "X" ∈ importedXStore.columns
  ∧ "X" ∉ reloadedYStore.columns := by decide

/-- C4 (amended): along any sequence of parameter-file imports, adds,
removes and updates (no loads), the column list only grows, by appending
newly-seen keys at the end — in particular removing a record never
removes a column; `load_csv`, by contrast, replaces the column list with
the loaded file's header. -/
theorem columns_monotone_without_load :
    (∀ (st : CSVStore) (ops : List EditOp),
      ∃ ext, (applyEdits st ops).columns = st.columns ++ ext)
  ∧ (∀ (st : CSVStore) (header : List String) (rows : List (List String)),
      ((load_csv st (some header) rows).1).columns = header)
  ∧ (∀ (st : CSVStore) (i : Int), ((remove_card st i).1).columns = st.columns) := by
  refine ⟨fun st ops => applyEdits_columns_grows ops st, fun st header rows => rfl,
    fun st i => ?_⟩
  rw [remove_card]
  by_cases h : 0 ≤ i ∧ i < (st.cards.length : Int) <;> simp [h]

/-- C5: for `_run_cli` with a resolved tool root, success is true iff
the spawned process exited with status 0; a nonzero exit yields `false`
with the concatenated, stripped stream text; a launch error yields
`false` with the error text (the missing-script message for
`FileNotFoundError`); and a timeout yields `false` with output exactly
`"Command timed out"`. -/
theorem runCli_success_iff_exit_zero (root script : String) :
    (∀ outcome : ProcOutcome, ((runCli (some root) script outcome).1 = true ↔
        ∃ stdout stderr, outcome = ProcOutcome.exited 0 stdout stderr))
  ∧ (∀ (code : Int) (stdout stderr : String), code ≠ 0 →
      runCli (some root) script (.exited code stdout stderr) =
        (false, (stdout ++ stderr).trim))
  ∧ (∀ msg, runCli (some root) script (.otherError msg) = (false, msg))
  ∧ runCli (some root) script .fileNotFound = (false, "Script not found: " ++ script)
  ∧ runCli (some root) script .timedOut = (false, "Command timed out") := by
  refine ⟨fun outcome => ?_, fun code stdout stderr h => ?_, fun msg => rfl, rfl, rfl⟩
  · cases outcome <;> simp [runCli]
  · simp [runCli, h]

/-- C5 (witness): a nonzero exit and a timeout at concrete inputs. -/
theorem runCli_success_iff_exit_zero_witness :
    runCli (some "root") "script.py" (.exited 1 "out" "err") =
      (false, ("out" ++ "err").trim)
  ∧ runCli (some "root") "script.py" .timedOut = (false, "Command timed out") :=
  ⟨(runCli_success_iff_exit_zero "root" "script.py").2.1 1 "out" "err" (by decide),
   (runCli_success_iff_exit_zero "root" "script.py").2.2.2.2⟩

/-- C6: for any key whose length is not 8 (the empty string included —
`not adm1 or len(adm1) != 8` collapses to the length test),
`authenticate` fails with the invalid-input message and returns the
session state unchanged: no tool call is made (`toolCalls` is part of the
state) and the session does not become authenticated. -/
theorem authenticate_rejects_bad_length (m : CardMgr) (adm1 : String)
    (force : Bool) (h : adm1.length ≠ 8) :
    authenticate m adm1 force = (m, false, "ADM1 must be exactly 8 characters") := by
  simp [authenticate, h]

/-- C6 (witness): the 4-character key `"1234"` on a fresh manager. -/
theorem authenticate_rejects_bad_length_witness :
    ("1234" : String).length ≠ 8
  ∧ authenticate (initMgr none) "1234" false =
      (initMgr none, false, "ADM1 must be exactly 8 characters") :=
  ⟨by decide, authenticate_rejects_bad_length (initMgr none) "1234" false (by decide)⟩

/-- C7: on any index outside `[0, count)` — negative ones included —
`get_card` returns `none`, and `remove_card` and `update_card` return
`false` with the store unchanged.  All three are total Lean functions, so
no uncontrolled fault is possible. -/
theorem out_of_range_ops_are_noops (st : CSVStore) (i : Int)
    (h : ¬(0 ≤ i ∧ i < (st.cards.length : Int))) :
    get_card st i = none
  ∧ remove_card st i = (st, false)
  ∧ ∀ k v, update_card st i k v = (st, false) := by
  refine ⟨?_, ?_, fun k v => ?_⟩ <;> simp [get_card, remove_card, update_card, h]

/-- C7 (witness): index `-1` on the fresh (empty) store. -/
theorem out_of_range_ops_are_noops_witness :
    get_card initStore (-1) = none
  ∧ remove_card initStore (-1) = (initStore, false)
  ∧ update_card initStore (-1) "Ki" "00" = (initStore, false) :=
  ⟨(out_of_range_ops_are_noops initStore (-1) (by decide)).1,
   (out_of_range_ops_are_noops initStore (-1) (by decide)).2.1,
   (out_of_range_ops_are_noops initStore (-1) (by decide)).2.2 "Ki" "00"⟩

/-- C8 (counterexample): a session that just authenticated is in the
authenticated state with an empty cached identity mapping (the stub never
fills `card_info`), and `read_card_data` returns `none` — not the cached
mapping — so "authenticated implies data is returned" fails. -/
theorem read_card_data_none_when_authenticated :
    (authenticate (initMgr none) "12345678" false).1.authenticated = true
  ∧ read_card_data (authenticate (initMgr none) "12345678" false).1 = none :=
  ⟨rfl, rfl⟩

/-- C8 (amended): `read_card_data` returns the cached identity mapping
iff the session is authenticated and the cache is non-empty; it returns
the absent value (`None`) iff the session is not authenticated or the
cache is empty — the not-authenticated and empty-cache cases are
indistinguishable. -/
theorem read_card_data_characterization (m : CardMgr) (d : Record) :
    (read_card_data m = some d ↔ m.authenticated = true ∧ m.cardInfo = d ∧ d ≠ [])
  ∧ (read_card_data m = none ↔ m.authenticated = false ∨ m.cardInfo = []) := by
  obtain ⟨cli, ct, auth, info, tc⟩ := m
  cases auth <;> cases info <;> simp [read_card_data] <;> aesop

/-- C9 (counterexample): a store holding a record with a field under a
key outside the column set (reached by `load_csv` of a one-column file
followed by `update_card` with a new key, which does not merge the key
into the columns).  `save_csv` drops that field (`extrasaction='ignore'`),
so saving and then loading does not reproduce the record sequence. -/
theorem saveLoad_drops_stray_field :
    (saveLoad strayFieldStore).cards ≠ strayFieldStore.cards := by decide

/-- C9 (amended): for a duplicate-free column list, saving then loading
preserves the record count and order and reproduces each record
normalized to the column set: record `i` becomes the list pairing each
column, in column order, with record `i`'s value there (`""` when
absent).  Fields under keys outside the column set are dropped by save;
values at recognized columns are preserved verbatim. -/
theorem saveLoad_normalizes_records (st : CSVStore) (h : st.columns.Nodup) :
    (saveLoad st).columns = st.columns
  ∧ (saveLoad st).cards =
      st.cards.map (fun card => st.columns.map (fun c => (c, getD card c))) := by
  constructor
  · rfl
  · show (st.cards.map _).map _ = _
    rw [List.map_map]
    apply List.map_congr_left
    intro card _
    exact rowToRecord_of_nodup st.columns (fun c => getD card c) h

/-- C9 (witness): the round trip on a concrete two-column store whose
records miss some columns. -/
theorem saveLoad_normalizes_records_witness :
    twoColStore.columns.Nodup
  ∧ (saveLoad twoColStore).columns = twoColStore.columns
  ∧ (saveLoad twoColStore).cards =
      twoColStore.cards.map
        (fun card => twoColStore.columns.map (fun c => (c, getD card c))) :=
  ⟨by decide, (saveLoad_normalizes_records twoColStore (by decide)).1,
   (saveLoad_normalizes_records twoColStore (by decide)).2⟩

/-- C10: `validate_card` on any index outside `[0, count)` returns
exactly the one-element defect list naming the index — not an empty list
and not a boolean/optional not-found result as `get`/`remove`/`update`
use. -/
theorem validate_card_out_of_range_message (st : CSVStore) (i : Int)
    (h : ¬(0 ≤ i ∧ i < (st.cards.length : Int))) :
    validate_card st i = ["Invalid index: " ++ toString i] := by
  simp [validate_card, h]

/-- C10 (witness): index `-3` on the fresh store. -/
theorem validate_card_out_of_range_message_witness :
    validate_card initStore (-3) = ["Invalid index: " ++ toString (-3 : Int)] :=
  validate_card_out_of_range_message initStore (-3) (by decide)

end SimGUI
